import Mathlib

/-!
Verification of the agronomic risk / water-balance decision engine of
`mildiou_prevention.py` (repository Suivi_Vignes).

The Python source is shallowly embedded: floats become `ℚ`, Python `None`
becomes `Option`, Python dicts become association lists or functions into
`Option`, and Python's `round` (banker's rounding, ties to even) and `int`
(truncation toward zero) are modelled explicitly.
-/

namespace SuiviVignes

/-! ### Python numeric primitives -/

/-- Python `round(q)`: nearest integer, ties to even (banker's rounding). -/
def pyRound (q : ℚ) : ℤ :=
  if q - (⌊q⌋ : ℚ) < 1/2 then ⌊q⌋
  else if 1/2 < q - (⌊q⌋ : ℚ) then ⌊q⌋ + 1
  else if ⌊q⌋ % 2 = 0 then ⌊q⌋ else ⌊q⌋ + 1

/-- Python `round(q, 1)`. -/
def pyRound1 (q : ℚ) : ℚ := (pyRound (q * 10) : ℚ) / 10

/-- Python `round(q, 2)`. -/
def pyRound2 (q : ℚ) : ℚ := (pyRound (q * 100) : ℚ) / 100

/-- Python `int(q)`: truncation toward zero. -/
def pyInt (q : ℚ) : ℤ := if 0 ≤ q then ⌊q⌋ else ⌈q⌉

lemma pyRound_ge (q : ℚ) : q - 1/2 ≤ (pyRound q : ℚ) := by
  have h1 : ((⌊q⌋ : ℤ) : ℚ) ≤ q := Int.floor_le q
  have h2 : q < (⌊q⌋ : ℚ) + 1 := Int.lt_floor_add_one q
  unfold pyRound
  split_ifs <;> push_cast <;> linarith

lemma pyRound_le (q : ℚ) : (pyRound q : ℚ) ≤ q + 1/2 := by
  have h1 : ((⌊q⌋ : ℤ) : ℚ) ≤ q := Int.floor_le q
  have h2 : q < (⌊q⌋ : ℚ) + 1 := Int.lt_floor_add_one q
  unfold pyRound
  split_ifs <;> push_cast <;> linarith

lemma pyRound_intCast (n : ℤ) : pyRound (n : ℚ) = n := by
  unfold pyRound
  rw [Int.floor_intCast]
  norm_num

lemma pyRound_mono {a b : ℚ} (h : a ≤ b) : pyRound a ≤ pyRound b := by
  by_contra hc
  push_neg at hc
  have h1 := pyRound_le a
  have h2 := pyRound_ge b
  have hcast : (pyRound b : ℚ) + 1 ≤ (pyRound a : ℚ) := by
    exact_mod_cast Int.add_one_le_iff.mpr hc
  have hba : b ≤ a := by linarith
  have hab : a = b := le_antisymm h hba
  subst hab
  exact lt_irrefl _ hc

lemma pyRound1_mono {a b : ℚ} (h : a ≤ b) : pyRound1 a ≤ pyRound1 b := by
  have h10 : a * 10 ≤ b * 10 := by linarith
  have := pyRound_mono h10
  have hq : (pyRound (a * 10) : ℚ) ≤ (pyRound (b * 10) : ℚ) := by exact_mod_cast this
  unfold pyRound1
  linarith

lemma pyRound1_nonneg {q : ℚ} (h : 0 ≤ q) : 0 ≤ pyRound1 q := by
  have h2 := pyRound_ge (q * 10)
  have hz : (0 : ℤ) ≤ pyRound (q * 10) := by
    by_contra hc
    push_neg at hc
    have hle : pyRound (q * 10) ≤ -1 := by omega
    have : (pyRound (q * 10) : ℚ) ≤ -1 := by exact_mod_cast hle
    linarith
  have : (0 : ℚ) ≤ (pyRound (q * 10) : ℚ) := by exact_mod_cast hz
  unfold pyRound1
  linarith

lemma pyRound1_le_hundred {q : ℚ} (h : q ≤ 100) : pyRound1 q ≤ 100 := by
  have h1 := pyRound_le (q * 10)
  have hz : pyRound (q * 10) ≤ 1000 := by
    by_contra hc
    push_neg at hc
    have hle : (1001 : ℤ) ≤ pyRound (q * 10) := by omega
    have : (1001 : ℚ) ≤ (pyRound (q * 10) : ℚ) := by exact_mod_cast hle
    linarith
  have : (pyRound (q * 10) : ℚ) ≤ 1000 := by exact_mod_cast hz
  unfold pyRound1
  linarith

lemma pyRound1_tenths (k : ℤ) : pyRound1 ((k : ℚ) / 10) = (k : ℚ) / 10 := by
  unfold pyRound1
  have h : ((k : ℚ) / 10) * 10 = (k : ℚ) := by ring
  rw [h, pyRound_intCast]

lemma pyRound1_zero : pyRound1 0 = 0 := by
  have := pyRound1_tenths 0
  simpa using this

/-! ### ModeleIPI (infection-potential index, `mildiou_prevention.py` lines 297-352)

`ModeleIPI._interpolate`, `_find_bounding_keys`, the static `IPI_TABLE` and
`calculer_ipi` are embedded exactly; the table rows are stored in the order
of the Python dict literal, which is already the sorted order used by the
code. -/

/-- `ModeleIPI._interpolate`. -/
def interpolate (x x0 y0 x1 y1 : ℚ) : ℚ :=
  if x1 = x0 then y0 else y0 + (x - x0) * (y1 - y0) / (x1 - x0)

/-- Loop body of `ModeleIPI._find_bounding_keys`: first adjacent pair
`keys[i] <= value < keys[i+1]`. -/
def findPair : List ℚ → ℚ → Option (ℚ × ℚ)
  | a :: b :: rest, v => if a ≤ v ∧ v < b then some (a, b) else findPair (b :: rest) v
  | _, _ => none

/-- `ModeleIPI._find_bounding_keys`. -/
def findBoundingKeys (keys : List ℚ) (v : ℚ) : ℚ × ℚ :=
  match keys with
  | [] => (0, 0)
  | k0 :: _ =>
    let klast := keys.getLast?.getD k0
    if v ≤ k0 then (k0, k0)
    else if klast ≤ v then (klast, klast)
    else
      match findPair keys v with
      | some p => p
      | none => (klast, klast)

/-- `ModeleIPI.IPI_TABLE`. -/
def ipiTable : List (ℚ × List (ℚ × ℚ)) :=
  [ (10, [(6, 10), (9, 20), (12, 30), (15, 40), (18, 50)])
  , (13, [(5, 10), (7, 20), (10, 30), (12, 40), (15, 60), (18, 80)])
  , (16, [(4, 10), (6, 20), (8, 30), (10, 50), (12, 70), (15, 90)])
  , (19, [(3, 10), (5, 20), (7, 40), (9, 60), (11, 80), (13, 100)])
  , (21, [(3, 10), (4, 20), (6, 50), (8, 80), (10, 100)])
  , (24, [(3, 10), (4, 30), (6, 70), (8, 100)])
  , (27, [(3, 20), (5, 60), (7, 100)]) ]

/-- Row lookup `IPI_TABLE[t]`. -/
def tableRow (t : ℚ) : List (ℚ × ℚ) :=
  ((ipiTable.find? fun e => decide (e.1 = t)).map Prod.snd).getD []

/-- Cell lookup `row[d]` inside one temperature row. -/
def lookupCell (row : List (ℚ × ℚ)) (k : ℚ) : ℚ :=
  ((row.find? fun e => decide (e.1 = k)).map Prod.snd).getD 0

/-- Duration-axis interpolation inside one temperature row of `calculer_ipi`. -/
def rowInterp (row : List (ℚ × ℚ)) (duree : ℚ) : ℚ :=
  let keys := row.map Prod.fst
  let p := findBoundingKeys keys duree
  interpolate duree p.1 (lookupCell row p.1) p.2 (lookupCell row p.2)

/-- Sorted temperature keys of `IPI_TABLE`. -/
def tempKeys : List ℚ := [10, 13, 16, 19, 21, 24, 27]

/-- `ModeleIPI.calculer_ipi`; `none` models a missing `temp_moy`. -/
def calculerIpi (tempMoy : Option ℚ) (dureeHumectation : ℚ) : ℤ :=
  match tempMoy with
  | none => 0
  | some temp =>
    if temp < 10 ∨ 27 < temp then 0
    else
      let t := findBoundingKeys tempKeys temp
      let ipi0 := rowInterp (tableRow t.1) dureeHumectation
      if t.1 = t.2 then pyRound (max 0 ipi0)
      else
        let ipi1 := rowInterp (tableRow t.2) dureeHumectation
        pyRound (max 0 (interpolate temp t.1 ipi0 t.2 ipi1))

/-! ### ModeleBilanHydrique.calculer_kc_gdd (lines 396-413) -/

/-- `ModeleBilanHydrique.calculer_kc_gdd`: dynamic crop coefficient from
cumulative growing-degree-days. -/
def calculerKcGdd (gddCumul : ℚ) : ℚ :=
  if gddCumul < 200 then 0.1
  else if gddCumul < 600 then 0.1 + 0.6 * (gddCumul - 200) / 400
  else if gddCumul < 1200 then 0.7 + 0.1 * (gddCumul - 600) / 600
  else if gddCumul < 1500 then 0.8 - 0.4 * (gddCumul - 1200) / 300
  else max 0.3 (0.4 - 0.1 * (gddCumul - 1500) / 300)

/-! ### SystemeDecision decision fusion (lines 985-988 and 1352-1362) -/

/-- The `decision` block of `SystemeDecision.analyser_parcelle`:
`score_brut` is the Python variable `score_decision`, `score` the rounded
value stored in the analysis record. -/
structure DecisionMildiou where
  score_brut : ℚ
  score : ℚ
  action : String
  urgence : String

def SEUIL_DECISION_HAUTE : ℚ := 5

def SEUIL_DECISION_MOYENNE : ℚ := 2

/-- Decision fusion of `analyser_parcelle`: `score_decision = risque_simple -
protection` followed by the closed threshold ladder. -/
def decisionMildiou (risqueSimple protection : ℚ) : DecisionMildiou :=
  if SEUIL_DECISION_HAUTE ≤ risqueSimple - protection then
    ⟨risqueSimple - protection, pyRound1 (risqueSimple - protection),
     "TRAITER MAINTENANT (Mildiou)", "haute"⟩
  else if SEUIL_DECISION_MOYENNE ≤ risqueSimple - protection then
    ⟨risqueSimple - protection, pyRound1 (risqueSimple - protection),
     "Surveiller - Traiter si pluie annoncée (Mildiou)", "moyenne"⟩
  else
    ⟨risqueSimple - protection, pyRound1 (risqueSimple - protection),
     "Pas de traitement Mildiou nécessaire", "faible"⟩

lemma decisionMildiou_score_brut (r p : ℚ) : (decisionMildiou r p).score_brut = r - p := by
  unfold decisionMildiou
  split_ifs <;> rfl

lemma decisionMildiou_score (r p : ℚ) : (decisionMildiou r p).score = pyRound1 (r - p) := by
  unfold decisionMildiou
  split_ifs <;> rfl

/-! ### Claim theorems: C1, C4, C9, C10 -/

/-- C1: the decision score equals the simple-model risk score minus the
protection score exactly, and the urgency tiers have closed boundaries:
score ≥ 5 gives the high-urgency verdict, 2 ≤ score < 5 the moderate one,
score < 2 the low one.  Moreover for scores on the tenths grid actually
produced by the code, the rounded score stored in the analysis equals the
difference as well. -/
theorem decision_fusion_score_et_seuils :
    (∀ r p : ℚ,
      (decisionMildiou r p).score_brut = r - p ∧
      ((decisionMildiou r p).urgence = "haute" ↔ 5 ≤ r - p) ∧
      ((decisionMildiou r p).urgence = "moyenne" ↔ 2 ≤ r - p ∧ r - p < 5) ∧
      ((decisionMildiou r p).urgence = "faible" ↔ r - p < 2)) ∧
    (∀ k m : ℤ,
      (decisionMildiou ((k : ℚ) / 10) ((m : ℚ) / 10)).score = (k : ℚ) / 10 - (m : ℚ) / 10) := by
  constructor
  · intro r p
    refine ⟨decisionMildiou_score_brut r p, ?_⟩
    unfold decisionMildiou SEUIL_DECISION_HAUTE SEUIL_DECISION_MOYENNE
    split_ifs with h1 h2
    · exact ⟨Iff.intro (fun _ => h1) (fun _ => rfl),
        iff_of_false (by simp) (fun hc => absurd hc.2 (not_lt.mpr h1)),
        iff_of_false (by simp) (not_lt.mpr (by linarith))⟩
    · exact ⟨iff_of_false (by simp) h1,
        Iff.intro (fun _ => ⟨h2, not_le.mp h1⟩) (fun _ => rfl),
        iff_of_false (by simp) (not_lt.mpr h2)⟩
    · exact ⟨iff_of_false (by simp) h1,
        iff_of_false (by simp) (fun hc => h2 hc.1),
        Iff.intro (fun _ => not_le.mp h2) (fun _ => rfl)⟩
  · intro k m
    rw [decisionMildiou_score]
    have h : (k : ℚ) / 10 - (m : ℚ) / 10 = ((k - m : ℤ) : ℚ) / 10 := by
      push_cast
      ring
    rw [h, pyRound1_tenths]

/-- C4: evaluating the IPI interpolation at an exact table key pair
reproduces the stored cell value with no drift; in particular temperature
16 °C with wetness duration 6 h gives exactly 20. -/
theorem ipi_exact_aux_cles_de_table :
    (calculerIpi (some 16) 6 = 20) ∧
    ∀ p ∈ ipiTable, ∀ c ∈ p.2, (calculerIpi (some p.1) c.1 : ℚ) = c.2 := by
  constructor
  · norm_num [calculerIpi, tempKeys, findBoundingKeys, findPair, tableRow, ipiTable,
      rowInterp, lookupCell, interpolate, pyRound]
  · intro p hp c hc
    fin_cases hp <;> simp only at hc <;> fin_cases hc <;>
      norm_num [calculerIpi, tempKeys, findBoundingKeys, findPair, tableRow, ipiTable,
        rowInterp, lookupCell, interpolate, pyRound]

/-- Witness for C4: the cell (16 °C, 6 h) of the table. -/
theorem ipi_exact_aux_cles_de_table_temoin :
    (calculerIpi (some 16) 6 : ℚ) = 20 :=
  ipi_exact_aux_cles_de_table.2 (16, [(4, 10), (6, 20), (8, 30), (10, 50), (12, 70), (15, 90)])
    (by simp [ipiTable]) (6, 20) (by simp)

/-- C9: a missing mean temperature, or one outside [10, 27] °C, makes
`calculer_ipi` return exactly 0 for every wetness duration. -/
theorem ipi_nul_hors_bande :
    (∀ d : ℚ, calculerIpi none d = 0) ∧
    ∀ (t d : ℚ), t < 10 ∨ 27 < t → calculerIpi (some t) d = 0 := by
  refine ⟨fun d => rfl, fun t d h => ?_⟩
  simp only [calculerIpi]
  rw [if_pos h]

/-- Witness for C9: temperature 30 °C (above the band) and a missing
temperature both give IPI 0. -/
theorem ipi_nul_hors_bande_temoin :
    calculerIpi (some 30) 12 = 0 ∧ calculerIpi none 3 = 0 :=
  ⟨ipi_nul_hors_bande.2 30 12 (Or.inr (by norm_num)), ipi_nul_hors_bande.1 3⟩

/-- C10: the dynamic crop coefficient stays inside [0.1, 0.8] for every
rational cumulative-GDD input, negative and very large values included. -/
theorem kc_gdd_borne :
    ∀ g : ℚ, 1/10 ≤ calculerKcGdd g ∧ calculerKcGdd g ≤ 4/5 := by
  intro g
  unfold calculerKcGdd
  split_ifs with h1 h2 h3 h4
  · norm_num
  · push_neg at h1
    constructor <;> [linarith; linarith]
  · push_neg at h1 h2
    constructor <;> [linarith; linarith]
  · push_neg at h1 h2 h3
    constructor <;> [linarith; linarith]
  · push_neg at h1 h2 h3 h4
    constructor
    · exact le_trans (by norm_num) (le_max_left _ _)
    · exact max_le (by norm_num) (by linarith)

/-! ### GestionTraitements (lines 537-672)

Dates are modelled as integer day numbers (ISO-string comparison in the
Python code is chronological).  The weather history is reduced to the pairs
(date, precipitation) that `calculer_protection_actuelle` reads; the
limiting-factor strings become the inductive `Facteur`. -/

structure Caracteristiques where
  persistance_jours : ℚ
  lessivage_seuil_mm : ℚ
  typeProduit : String
deriving DecidableEq

structure Traitement where
  parcelle : String
  date : ℤ
  carac : Caracteristiques
deriving DecidableEq

inductive Facteur where
  | persistance
  | pousse
  | lessivage (pluie_mm : ℚ)
  | aucunTraitement
  | traitementFutur
deriving DecidableEq

/-- `GestionTraitements.COEF_POUSSE` with the `.get(stade, 1.0)` default. -/
def coefPousse (stade : String) : ℚ :=
  if stade = "repos" then 0
  else if stade = "debourrement" then 0.5
  else if stade = "pousse_10cm" then 2
  else if stade = "pre_floraison" then 1.8
  else if stade = "floraison" then 1
  else if stade = "nouaison" then 0.8
  else if stade = "fermeture_grappe" then 0.5
  else if stade = "veraison" then 0.2
  else if stade = "maturation" then 0.1
  else 1

/-- Python `max(iterable, key=date)`: keeps the first element among ties,
replaces only on strictly larger key. -/
def maxByDate (t : Traitement) : List Traitement → Traitement
  | [] => t
  | u :: r => maxByDate (if t.date < u.date then u else t) r

/-- The `dernier_traitement` selection of `calculer_protection_actuelle`. -/
def dernierTraitement (tl : List Traitement) (parcelle : String) : Option Traitement :=
  match tl.filter (fun t => t.parcelle == parcelle) with
  | [] => none
  | t :: r => some (maxByDate t r)

/-- `pluie_depuis_traitement`: sum of precipitation over the stored dates
between the treatment date and the query date (both inclusive). -/
def pluieDepuis : List (ℤ × ℚ) → ℤ → ℤ → ℚ
  | [], _, _ => 0
  | e :: r, debut, fin => (if debut ≤ e.1 ∧ e.1 ≤ fin then e.2 else 0) + pluieDepuis r debut fin

/-- Body of `calculer_protection_actuelle` after the last-treatment lookup
and the future-date check: the (protection, limiting factor) pair before
rounding, as a function of elapsed days and of the cumulated rain since the
treatment.  The Python code computes the time/growth pair first and then
lets leaching override it; since the leaching test does not depend on that
pair, the override is written as the outer conditional here. -/
def protEtFacteur (dern : Traitement) (stade : String) (jours pluie : ℚ) : ℚ × Facteur :=
  if dern.carac.lessivage_seuil_mm < pluie then (0, Facteur.lessivage pluie)
  else if dern.carac.typeProduit = "contact" ∨ dern.carac.typeProduit = "penetrant" then
    if max 0 (10 - jours * coefPousse stade) <
        max 0 (10 - jours / dern.carac.persistance_jours * 10) then
      (max 0 (10 - jours * coefPousse stade), Facteur.pousse)
    else (max 0 (10 - jours / dern.carac.persistance_jours * 10), Facteur.persistance)
  else (max 0 (10 - jours / dern.carac.persistance_jours * 10), Facteur.persistance)

/-- `GestionTraitements.calculer_protection_actuelle`. -/
def calculerProtectionActuelle (tl : List Traitement) (parcelle : String) (dateActuelle : ℤ)
    (meteo : List (ℤ × ℚ)) (stadeActuel : String) : ℚ × Option Traitement × Facteur :=
  match dernierTraitement tl parcelle with
  | none => (0, none, Facteur.aucunTraitement)
  | some dern =>
    if dateActuelle - dern.date < 0 then (10, some dern, Facteur.traitementFutur)
    else
      (pyRound1 (protEtFacteur dern stadeActuel ((dateActuelle - dern.date : ℤ) : ℚ)
          (pluieDepuis meteo dern.date dateActuelle)).1,
       some dern,
       (protEtFacteur dern stadeActuel ((dateActuelle - dern.date : ℤ) : ℚ)
          (pluieDepuis meteo dern.date dateActuelle)).2)

lemma coefPousse_nonneg (s : String) : 0 ≤ coefPousse s := by
  unfold coefPousse
  split_ifs <;> norm_num

lemma ite_lt_pair_fst (p t : ℚ) (f g : Facteur) :
    (if p < t then (p, f) else (t, g)).1 = min p t := by
  split_ifs with h
  · exact (min_eq_left (le_of_lt h)).symm
  · exact (min_eq_right (not_lt.mp h)).symm

lemma protEtFacteur_leach (dern : Traitement) (stade : String) (j pl : ℚ)
    (hL : dern.carac.lessivage_seuil_mm < pl) :
    protEtFacteur dern stade j pl = (0, Facteur.lessivage pl) := by
  unfold protEtFacteur
  rw [if_pos hL]

lemma protEtFacteur_fst_nonneg (dern : Traitement) (stade : String) (j pl : ℚ) :
    0 ≤ (protEtFacteur dern stade j pl).1 := by
  unfold protEtFacteur
  split_ifs <;> dsimp only <;> first | exact le_refl 0 | exact le_max_left _ _

lemma protEtFacteur_fst_antitone (dern : Traitement) (stade : String)
    (hpers : 0 < dern.carac.persistance_jours) {j₁ j₂ pl₁ pl₂ : ℚ}
    (hj : j₁ ≤ j₂) (hpl : pl₁ ≤ pl₂) :
    (protEtFacteur dern stade j₂ pl₂).1 ≤ (protEtFacteur dern stade j₁ pl₁).1 := by
  have hdiv : j₁ / dern.carac.persistance_jours ≤ j₂ / dern.carac.persistance_jours :=
    (div_le_div_iff_of_pos_right hpers).mpr hj
  have hT : max 0 (10 - j₂ / dern.carac.persistance_jours * 10) ≤
      max 0 (10 - j₁ / dern.carac.persistance_jours * 10) :=
    max_le_max le_rfl (by linarith)
  have hmul : j₁ * coefPousse stade ≤ j₂ * coefPousse stade :=
    mul_le_mul_of_nonneg_right hj (coefPousse_nonneg stade)
  have hA : max 0 (10 - j₂ * coefPousse stade) ≤ max 0 (10 - j₁ * coefPousse stade) :=
    max_le_max le_rfl (by linarith)
  by_cases hL₂ : dern.carac.lessivage_seuil_mm < pl₂
  · rw [protEtFacteur_leach dern stade j₂ pl₂ hL₂]
    exact protEtFacteur_fst_nonneg dern stade j₁ pl₁
  · have hL₁ : ¬ dern.carac.lessivage_seuil_mm < pl₁ := fun hc => hL₂ (lt_of_lt_of_le hc hpl)
    unfold protEtFacteur
    rw [if_neg hL₂, if_neg hL₁]
    by_cases htyp : dern.carac.typeProduit = "contact" ∨ dern.carac.typeProduit = "penetrant"
    · rw [if_pos htyp, if_pos htyp, ite_lt_pair_fst, ite_lt_pair_fst]
      exact min_le_min hA hT
    · rw [if_neg htyp, if_neg htyp]
      exact hT

lemma pluieDepuis_mono (m : List (ℤ × ℚ)) (t0 : ℤ) {a b : ℤ} (hab : a ≤ b)
    (hm : ∀ e ∈ m, 0 ≤ e.2) : pluieDepuis m t0 a ≤ pluieDepuis m t0 b := by
  induction m with
  | nil => simp [pluieDepuis]
  | cons e r ih =>
    simp only [pluieDepuis]
    have hr := ih (fun x hx => hm x (List.mem_cons_of_mem _ hx))
    have he := hm e (List.mem_cons_self _ _)
    split_ifs with h1 h2 h3
    · linarith
    · exact absurd ⟨h1.1, le_trans h1.2 hab⟩ h2
    · linarith
    · linarith

/-- C5: with a fixed last treatment, stage and weather history, the
protection score is non-increasing in the number of elapsed days since the
treatment (for non-negative elapsed days), and whenever the rain cumulated
since the treatment date exceeds the product leaching threshold the
protection is forced to 0 with leaching as the limiting factor. -/
theorem protection_decroissante_et_lessivage
    (tl : List Traitement) (parcelle : String) (meteo : List (ℤ × ℚ)) (stade : String)
    (dern : Traitement) (a₁ a₂ : ℤ)
    (hdern : dernierTraitement tl parcelle = some dern)
    (hpers : 0 < dern.carac.persistance_jours)
    (hmeteo : ∀ e ∈ meteo, 0 ≤ e.2)
    (h₁ : dern.date ≤ a₁) (h₁₂ : a₁ ≤ a₂) :
    (calculerProtectionActuelle tl parcelle a₂ meteo stade).1 ≤
      (calculerProtectionActuelle tl parcelle a₁ meteo stade).1 ∧
    ∀ a : ℤ, dern.date ≤ a →
      dern.carac.lessivage_seuil_mm < pluieDepuis meteo dern.date a →
      (calculerProtectionActuelle tl parcelle a meteo stade).1 = 0 ∧
      (calculerProtectionActuelle tl parcelle a meteo stade).2.2 =
        Facteur.lessivage (pluieDepuis meteo dern.date a) := by
  have ha₂ : dern.date ≤ a₂ := le_trans h₁ h₁₂
  constructor
  · have hne₁ : ¬ a₁ - dern.date < 0 := by omega
    have hne₂ : ¬ a₂ - dern.date < 0 := by omega
    simp only [calculerProtectionActuelle, hdern]
    rw [if_neg hne₁, if_neg hne₂]
    dsimp only
    apply pyRound1_mono
    apply protEtFacteur_fst_antitone dern stade hpers
    · exact_mod_cast (by omega : a₁ - dern.date ≤ a₂ - dern.date)
    · exact pluieDepuis_mono meteo dern.date h₁₂ hmeteo
  · intro a ha hl
    have hne : ¬ a - dern.date < 0 := by omega
    simp only [calculerProtectionActuelle, hdern]
    rw [if_neg hne]
    rw [protEtFacteur_leach dern stade _ _ hl]
    exact ⟨pyRound1_zero, rfl⟩

/-- Witness for C5: a contact treatment on day 0 with 40 mm of rain on day 1
(over the 30 mm threshold); protection at day 3 is below protection at day 2
and is leached to 0. -/
theorem protection_decroissante_et_lessivage_temoin :
    (calculerProtectionActuelle [⟨"A", 0, ⟨10, 30, "contact"⟩⟩] "A" 3 [(1, 40)] "floraison").1 ≤
      (calculerProtectionActuelle [⟨"A", 0, ⟨10, 30, "contact"⟩⟩] "A" 2 [(1, 40)] "floraison").1 ∧
    (calculerProtectionActuelle [⟨"A", 0, ⟨10, 30, "contact"⟩⟩] "A" 3 [(1, 40)] "floraison").1 = 0 := by
  have h := protection_decroissante_et_lessivage
    [⟨"A", 0, ⟨10, 30, "contact"⟩⟩] "A" [(1, 40)] "floraison"
    ⟨"A", 0, ⟨10, 30, "contact"⟩⟩ 2 3 (by decide) (by norm_num) (by decide)
    (by decide) (by decide)
  exact ⟨h.1, (h.2 3 (by decide) (by norm_num [pluieDepuis])).1⟩

/-- C7: if no treatment was ever logged for the parcel, the protection
computation returns 0 with the explicit no-treatment marker and no
last-treatment record, and the decision score then equals the raw
simple-model risk score. -/
theorem protection_sans_traitement
    (tl : List Traitement) (parcelle : String) (a : ℤ) (meteo : List (ℤ × ℚ)) (stade : String)
    (h : ∀ t ∈ tl, t.parcelle ≠ parcelle) :
    calculerProtectionActuelle tl parcelle a meteo stade = (0, none, Facteur.aucunTraitement) ∧
    ∀ r : ℚ,
      (decisionMildiou r (calculerProtectionActuelle tl parcelle a meteo stade).1).score_brut
        = r := by
  have hfil : tl.filter (fun t => t.parcelle == parcelle) = [] := by
    rw [List.filter_eq_nil_iff]
    intro t ht
    simpa using h t ht
  have hnone : dernierTraitement tl parcelle = none := by
    unfold dernierTraitement
    rw [hfil]
  have h1 : calculerProtectionActuelle tl parcelle a meteo stade
      = (0, none, Facteur.aucunTraitement) := by
    unfold calculerProtectionActuelle
    rw [hnone]
  refine ⟨h1, fun r => ?_⟩
  rw [h1, decisionMildiou_score_brut]
  exact sub_zero r

/-- Witness for C7: a history holding only a treatment of another parcel. -/
theorem protection_sans_traitement_temoin :
    calculerProtectionActuelle [⟨"B", 0, ⟨7, 25, "contact"⟩⟩] "A" 5 [] "floraison"
      = (0, none, Facteur.aucunTraitement) ∧
    (decisionMildiou 7
      (calculerProtectionActuelle [⟨"B", 0, ⟨7, 25, "contact"⟩⟩] "A" 5 [] "floraison").1).score_brut
      = 7 := by
  have h := protection_sans_traitement [⟨"B", 0, ⟨7, 25, "contact"⟩⟩] "A" 5 [] "floraison"
    (by decide)
  exact ⟨h.1, h.2 7⟩

/-! ### SystemeDecision._mettre_a_jour_historique_meteo (lines 1044-1105)

The persisted weather history is a map from date keys to stored records
(all seven fields present, each possibly null); a fetched batch is a list
of (date, incoming record) pairs — a Python dict, hence with pairwise
distinct keys where that matters.  The fallback constants 0 / 60 / 3.5 are
the ones used by `jour.get(...)` when the date was absent from the store. -/

/-- One freshly fetched record (may contain nulls). -/
structure MeteoIn where
  temp_max : Option ℚ
  temp_min : Option ℚ
  precipitation : Option ℚ
  humidite : Option ℚ
  etp0 : Option ℚ
deriving DecidableEq

/-- One stored daily record of `meteo_historique`. -/
structure MeteoStock where
  temp_moy : Option ℚ
  temp_max : Option ℚ
  temp_min : Option ℚ
  precipitation : Option ℚ
  humidite : Option ℚ
  etp0 : Option ℚ
  gdd_jour : Option ℚ
deriving DecidableEq

/-- The persisted weather map, keyed by date string. -/
abbrev MeteoStore := String → Option MeteoStock

/-- The all-null skip test (`temp_max is None and temp_min is None and
pluie is None and etp0 is None`); it also covers the `if not data` guard. -/
def ignorerJour (d : MeteoIn) : Bool :=
  d.temp_max.isNone && d.temp_min.isNone && d.precipitation.isNone && d.etp0.isNone

/-- Mean-temperature recomputation of the merge. -/
def tempMoyRecalc (d : MeteoIn) : ℚ :=
  match d.temp_max, d.temp_min with
  | some a, some b => (a + b) / 2
  | some a, none => a
  | none, some b => b
  | none, none => 0

/-- `jour.get(field, fallback)`: stored field of the prior record, or the
fallback when the date was absent from the store. -/
def champOuDefaut (prior : Option MeteoStock) (f : MeteoStock → Option ℚ)
    (dflt : Option ℚ) : Option ℚ :=
  match prior with
  | some r => f r
  | none => dflt

/-- The per-date merged record built at lines 1092-1100. -/
def fusionJour (tBase : ℚ) (prior : Option MeteoStock) (d : MeteoIn) : MeteoStock :=
  { temp_moy := some (tempMoyRecalc d)
  , temp_max := match d.temp_max with
      | some v => some v
      | none => champOuDefaut prior MeteoStock.temp_max none
  , temp_min := match d.temp_min with
      | some v => some v
      | none => champOuDefaut prior MeteoStock.temp_min none
  , precipitation := match d.precipitation with
      | some v => some v
      | none => champOuDefaut prior MeteoStock.precipitation (some 0)
  , humidite := match d.humidite with
      | some v => some v
      | none => champOuDefaut prior MeteoStock.humidite (some 60)
  , etp0 := match d.etp0 with
      | some v => some v
      | none => champOuDefaut prior MeteoStock.etp0 (some (7/2))
  , gdd_jour := some (max 0 (tempMoyRecalc d - tBase)) }

/-- One iteration of the merge loop. -/
def fusionEtape (tBase : ℚ) (h : MeteoStore) (e : String × MeteoIn) : MeteoStore :=
  if ignorerJour e.2 then h
  else Function.update h e.1 (some (fusionJour tBase (h e.1) e.2))

/-- The whole merge of a fetched batch into the persisted map. -/
def fusionHistorique (tBase : ℚ) (h : MeteoStore) (batch : List (String × MeteoIn)) : MeteoStore :=
  batch.foldl (fusionEtape tBase) h

/-- First batch entry for a given date (the only one for a dict batch). -/
def premierJour (d : String) (batch : List (String × MeteoIn)) : Option MeteoIn :=
  (batch.find? fun e => e.1 == d).map Prod.snd

lemma fusionEtape_other (tBase : ℚ) (h : MeteoStore) (e : String × MeteoIn) (d : String)
    (hne : e.1 ≠ d) : fusionEtape tBase h e d = h d := by
  unfold fusionEtape
  split_ifs
  · rfl
  · exact Function.update_noteq (Ne.symm hne) _ h

lemma fusionHistorique_notMem (tBase : ℚ) (batch : List (String × MeteoIn)) (d : String)
    (hd : d ∉ batch.map Prod.fst) :
    ∀ h : MeteoStore, fusionHistorique tBase h batch d = h d := by
  induction batch with
  | nil => intro h; rfl
  | cons e r ih =>
    intro h
    simp only [List.map_cons, List.mem_cons] at hd
    push_neg at hd
    have : fusionHistorique tBase h (e :: r) = fusionHistorique tBase (fusionEtape tBase h e) r :=
      rfl
    rw [this, ih (fun hc => hd.2 hc) (fusionEtape tBase h e),
      fusionEtape_other tBase h e d (fun hc => hd.1 hc.symm)]

lemma fusionHistorique_lookup (tBase : ℚ) (batch : List (String × MeteoIn)) (d : String)
    (hnd : (batch.map Prod.fst).Nodup) :
    ∀ h : MeteoStore, fusionHistorique tBase h batch d =
      match premierJour d batch with
      | none => h d
      | some inc => if ignorerJour inc then h d else some (fusionJour tBase (h d) inc) := by
  induction batch with
  | nil => intro h; rfl
  | cons e r ih =>
    intro h
    simp only [List.map_cons, List.nodup_cons] at hnd
    have hstep : fusionHistorique tBase h (e :: r) = fusionHistorique tBase (fusionEtape tBase h e) r :=
      rfl
    by_cases hk : e.1 = d
    · have hdr : d ∉ r.map Prod.fst := hk ▸ hnd.1
      rw [hstep, fusionHistorique_notMem tBase r d hdr]
      have hpj : premierJour d (e :: r) = some e.2 := by
        unfold premierJour
        rw [List.find?_cons_of_pos _ (by simp [hk])]
        rfl
      rw [hpj]
      show fusionEtape tBase h e d =
        if ignorerJour e.2 then h d else some (fusionJour tBase (h d) e.2)
      unfold fusionEtape
      split_ifs with hig
      · rfl
      · rw [hk, Function.update_same]
    · have hpj : premierJour d (e :: r) = premierJour d r := by
        unfold premierJour
        rw [List.find?_cons_of_neg _ (by simp [hk])]
      rw [hstep, ih hnd.2 (fusionEtape tBase h e), hpj,
        fusionEtape_other tBase h e d hk]

lemma fusionJour_idem (tBase : ℚ) (j : Option MeteoStock) (inc : MeteoIn) :
    fusionJour tBase (some (fusionJour tBase j inc)) inc = fusionJour tBase j inc := by
  obtain ⟨tmx, tmn, pr, hu, et⟩ := inc
  cases tmx <;> cases tmn <;> cases pr <;> cases hu <;> cases et <;> rfl

lemma fusionJour_preserve (tBase : ℚ) (j : Option MeteoStock) (inc : MeteoIn) :
    (fusionJour tBase j inc).temp_moy.isSome ∧
    ((j.bind MeteoStock.temp_max).isSome → (fusionJour tBase j inc).temp_max.isSome) ∧
    ((j.bind MeteoStock.temp_min).isSome → (fusionJour tBase j inc).temp_min.isSome) ∧
    ((j.bind MeteoStock.precipitation).isSome → (fusionJour tBase j inc).precipitation.isSome) ∧
    ((j.bind MeteoStock.humidite).isSome → (fusionJour tBase j inc).humidite.isSome) ∧
    ((j.bind MeteoStock.etp0).isSome → (fusionJour tBase j inc).etp0.isSome) ∧
    (fusionJour tBase j inc).gdd_jour.isSome := by
  obtain ⟨tmx, tmn, pr, hu, et⟩ := inc
  rcases j with _ | r <;> cases tmx <;> cases tmn <;> cases pr <;> cases hu <;> cases et <;>
    simp [fusionJour, champOuDefaut]

lemma fusionJour_champs (tBase : ℚ) (j : Option MeteoStock) (inc : MeteoIn) :
    (fusionJour tBase j inc).temp_max =
      (if inc.temp_max.isSome then inc.temp_max
       else champOuDefaut j MeteoStock.temp_max none) ∧
    (fusionJour tBase j inc).temp_min =
      (if inc.temp_min.isSome then inc.temp_min
       else champOuDefaut j MeteoStock.temp_min none) ∧
    (fusionJour tBase j inc).precipitation =
      (if inc.precipitation.isSome then inc.precipitation
       else champOuDefaut j MeteoStock.precipitation (some 0)) ∧
    (fusionJour tBase j inc).humidite =
      (if inc.humidite.isSome then inc.humidite
       else champOuDefaut j MeteoStock.humidite (some 60)) ∧
    (fusionJour tBase j inc).etp0 =
      (if inc.etp0.isSome then inc.etp0
       else champOuDefaut j MeteoStock.etp0 (some (7/2))) := by
  obtain ⟨tmx, tmn, pr, hu, et⟩ := inc
  cases tmx <;> cases tmn <;> cases pr <;> cases hu <;> cases et <;>
    simp [fusionJour, champOuDefaut]

/-- C2: the merge never replaces a non-null stored field by a null incoming
one — every field that was non-null stays non-null — and for a processed
date each raw field is set to the incoming value exactly when that value is
non-null, the prior stored value (or the documented fallback constant 0 mm
of rain, 60 % humidity, 3.5 mm of reference evapotranspiration) being kept
otherwise. -/
theorem fusion_meteo_non_destructive
    (tBase : ℚ) (h : MeteoStore) (batch : List (String × MeteoIn)) (d : String)
    (hnd : (batch.map Prod.fst).Nodup) :
    (((h d).bind MeteoStock.temp_moy).isSome →
      ((fusionHistorique tBase h batch d).bind MeteoStock.temp_moy).isSome) ∧
    (((h d).bind MeteoStock.temp_max).isSome →
      ((fusionHistorique tBase h batch d).bind MeteoStock.temp_max).isSome) ∧
    (((h d).bind MeteoStock.temp_min).isSome →
      ((fusionHistorique tBase h batch d).bind MeteoStock.temp_min).isSome) ∧
    (((h d).bind MeteoStock.precipitation).isSome →
      ((fusionHistorique tBase h batch d).bind MeteoStock.precipitation).isSome) ∧
    (((h d).bind MeteoStock.humidite).isSome →
      ((fusionHistorique tBase h batch d).bind MeteoStock.humidite).isSome) ∧
    (((h d).bind MeteoStock.etp0).isSome →
      ((fusionHistorique tBase h batch d).bind MeteoStock.etp0).isSome) ∧
    (((h d).bind MeteoStock.gdd_jour).isSome →
      ((fusionHistorique tBase h batch d).bind MeteoStock.gdd_jour).isSome) ∧
    (∀ inc, premierJour d batch = some inc → ignorerJour inc = false →
      (fusionHistorique tBase h batch d).bind MeteoStock.temp_max =
        (if inc.temp_max.isSome then inc.temp_max
         else champOuDefaut (h d) MeteoStock.temp_max none) ∧
      (fusionHistorique tBase h batch d).bind MeteoStock.temp_min =
        (if inc.temp_min.isSome then inc.temp_min
         else champOuDefaut (h d) MeteoStock.temp_min none) ∧
      (fusionHistorique tBase h batch d).bind MeteoStock.precipitation =
        (if inc.precipitation.isSome then inc.precipitation
         else champOuDefaut (h d) MeteoStock.precipitation (some 0)) ∧
      (fusionHistorique tBase h batch d).bind MeteoStock.humidite =
        (if inc.humidite.isSome then inc.humidite
         else champOuDefaut (h d) MeteoStock.humidite (some 60)) ∧
      (fusionHistorique tBase h batch d).bind MeteoStock.etp0 =
        (if inc.etp0.isSome then inc.etp0
         else champOuDefaut (h d) MeteoStock.etp0 (some (7/2)))) := by
  have hlk := fusionHistorique_lookup tBase batch d hnd h
  rcases hpj : premierJour d batch with _ | inc
  · simp only [hpj] at hlk
    rw [hlk]
    refine ⟨id, id, id, id, id, id, id, fun inc2 hinc2 _ => ?_⟩
    cases hinc2
  · simp only [hpj] at hlk
    by_cases hig : ignorerJour inc = true
    · rw [if_pos hig] at hlk
      rw [hlk]
      refine ⟨id, id, id, id, id, id, id, fun inc2 hinc2 hig2 => ?_⟩
      cases hinc2
      rw [hig] at hig2
      cases hig2
    · rw [if_neg hig] at hlk
      rw [hlk]
      have hp := fusionJour_preserve tBase (h d) inc
      have hc := fusionJour_champs tBase (h d) inc
      refine ⟨fun _ => ?_, fun hx => ?_, fun hx => ?_, fun hx => ?_, fun hx => ?_,
        fun hx => ?_, fun _ => ?_, fun inc2 hinc2 _ => ?_⟩
      · simpa using hp.1
      · simpa using hp.2.1 hx
      · simpa using hp.2.2.1 hx
      · simpa using hp.2.2.2.1 hx
      · simpa using hp.2.2.2.2.1 hx
      · simpa using hp.2.2.2.2.2.1 hx
      · simpa using hp.2.2.2.2.2.2
      · cases hinc2
        refine ⟨?_, ?_, ?_, ?_, ?_⟩ <;> simp only [Option.some_bind]
        · exact hc.1
        · exact hc.2.1
        · exact hc.2.2.1
        · exact hc.2.2.2.1
        · exact hc.2.2.2.2

/-- Witness for C2: a stored day with all fields set, merged with a fetch
carrying only precipitation and evapotranspiration. -/
theorem fusion_meteo_non_destructive_temoin :
    ((fusionHistorique 10
        (fun s => if s = "2024-05-01"
          then some ⟨some 15, some 20, some 10, some 2, some 80, some 3, some 5⟩ else none)
        [("2024-05-01", ⟨none, none, some 4, none, some 2⟩)] "2024-05-01").bind
      MeteoStock.temp_max).isSome ∧
    (fusionHistorique 10
        (fun s => if s = "2024-05-01"
          then some ⟨some 15, some 20, some 10, some 2, some 80, some 3, some 5⟩ else none)
        [("2024-05-01", ⟨none, none, some 4, none, some 2⟩)] "2024-05-01").bind
      MeteoStock.precipitation =
      (if (some (4 : ℚ)).isSome then some (4 : ℚ)
       else champOuDefaut
         ((fun s => if s = "2024-05-01"
            then some (⟨some 15, some 20, some 10, some 2, some 80, some 3, some 5⟩ : MeteoStock)
            else none) "2024-05-01")
         MeteoStock.precipitation (some 0)) := by
  have h := fusion_meteo_non_destructive 10
    (fun s => if s = "2024-05-01"
      then some ⟨some 15, some 20, some 10, some 2, some 80, some 3, some 5⟩ else none)
    [("2024-05-01", ⟨none, none, some 4, none, some 2⟩)] "2024-05-01" (by decide)
  exact ⟨h.2.1 (by decide),
    (h.2.2.2.2.2.2.2 ⟨none, none, some 4, none, some 2⟩ (by decide) (by decide)).2.2.1⟩

/-- C6: merging the same fetched batch twice (same configuration) leaves the
stored weather history exactly as after merging it once. -/
theorem fusion_meteo_idempotente
    (tBase : ℚ) (h : MeteoStore) (batch : List (String × MeteoIn))
    (hnd : (batch.map Prod.fst).Nodup) :
    fusionHistorique tBase (fusionHistorique tBase h batch) batch =
      fusionHistorique tBase h batch := by
  revert hnd
  induction batch generalizing h with
  | nil => intro _; rfl
  | cons e r ih =>
    intro hnd
    simp only [List.map_cons, List.nodup_cons] at hnd
    obtain ⟨hk, hr⟩ := hnd
    have hstep : ∀ g : MeteoStore,
        fusionHistorique tBase g (e :: r) = fusionHistorique tBase (fusionEtape tBase g e) r :=
      fun g => rfl
    rw [hstep h]
    set M := fusionHistorique tBase (fusionEtape tBase h e) r with hM
    rw [hstep M]
    have hfix : fusionEtape tBase M e = M := by
      by_cases hig : ignorerJour e.2 = true
      · unfold fusionEtape
        rw [if_pos hig]
      · have hval : M e.1 = some (fusionJour tBase (h e.1) e.2) := by
          rw [hM, fusionHistorique_notMem tBase r e.1 hk (fusionEtape tBase h e)]
          unfold fusionEtape
          rw [if_neg hig, Function.update_same]
        unfold fusionEtape
        rw [if_neg hig, hval, fusionJour_idem, ← hval]
        exact Function.update_eq_self e.1 M
    rw [hfix, hM]
    exact ih (fusionEtape tBase h e) hr

/-- Witness for C6: a two-day batch merged twice into a one-day store. -/
theorem fusion_meteo_idempotente_temoin :
    ((([("2024-05-01", (⟨some 18, some 8, none, some 70, some 3⟩ : MeteoIn)),
        ("2024-05-02", (⟨none, none, some 6, none, none⟩ : MeteoIn))]).map
          Prod.fst).Nodup) ∧
    fusionHistorique 10
      (fusionHistorique 10
        (fun s => if s = "2024-04-30"
          then some ⟨some 12, some 16, some 8, some 0, some 65, some 2, some 2⟩ else none)
        [("2024-05-01", ⟨some 18, some 8, none, some 70, some 3⟩),
         ("2024-05-02", ⟨none, none, some 6, none, none⟩)])
      [("2024-05-01", ⟨some 18, some 8, none, some 70, some 3⟩),
       ("2024-05-02", ⟨none, none, some 6, none, none⟩)] =
    fusionHistorique 10
      (fun s => if s = "2024-04-30"
        then some ⟨some 12, some 16, some 8, some 0, some 65, some 2, some 2⟩ else none)
      [("2024-05-01", ⟨some 18, some 8, none, some 70, some 3⟩),
       ("2024-05-02", ⟨none, none, some 6, none, none⟩)] :=
  ⟨by decide,
    fusion_meteo_idempotente 10
      (fun s => if s = "2024-04-30"
        then some ⟨some 12, some 16, some 8, some 0, some 65, some 2, some 2⟩ else none)
      [("2024-05-01", ⟨some 18, some 8, none, some 70, some 3⟩),
       ("2024-05-02", ⟨none, none, some 6, none, none⟩)] (by decide)⟩

/-! ### ModeleBilanHydrique.calculer_bilan_rfu (lines 415-534)

The scan runs over `dates_utiles`, the chronologically sorted stored days
inside the hydrological cycle; each such day is summarised by its month and
its (possibly null) precipitation / reference-evapotranspiration /
daily-GDD fields.  `kcCal` models `kc_calendrier.get(str(month), 0.1)`.
The Python `or 0.0` guards become `Option.getD 0`. -/

/-- One usable day of the water-balance scan. -/
structure JourBilan where
  month : ℕ
  precipitation : Option ℚ
  etp0 : Option ℚ
  gdd_jour : Option ℚ

/-- The result dictionary of `calculer_bilan_rfu`. -/
structure BilanResult where
  rfu_pct : ℚ
  rfu_mm : ℚ
  rfu_max_mm : ℚ
  niveau : String
  historique_pct : List ℚ
  ks_actuel : ℚ

/-- Step 2 of the loop: dynamic GDD-based Kc in March–October (at the
day-position-scaled cumulative GDD), calendar Kc elsewhere. -/
def kcJour (kcCal : ℕ → Option ℚ) (gddCumul : ℚ) (n i : ℕ) (j : JourBilan) : ℚ :=
  if 3 ≤ j.month ∧ j.month ≤ 10 then calculerKcGdd (gddCumul * ((i : ℚ) / (n : ℚ)))
  else (kcCal j.month).getD (1/10)

/-- Step 3 of the loop: stress coefficient from yesterday's reserve. -/
def ksJour (rfuMax rfu : ℚ) : ℚ :=
  if 50 < (if 0 < rfuMax then rfu / rfuMax * 100 else 0) then 1
  else max 0 ((if 0 < rfuMax then rfu / rfuMax * 100 else 0) / 50)

/-- Step 4 of the loop: effective precipitation after interception and
runoff. -/
def pEffJour (fRunoff iConst pluie : ℚ) : ℚ :=
  if iConst < pluie then (pluie - iConst) * (1 - fRunoff) else 0

/-- Step 5 of the loop: the new reserve, clamped to [0, capacity]. -/
def rfuSuivant (kcCal : ℕ → Option ℚ) (rfuMax fRunoff iConst gddCumul : ℚ) (n i : ℕ)
    (rfu : ℚ) (j : JourBilan) : ℚ :=
  max 0 (min rfuMax (rfu + pEffJour fRunoff iConst (j.precipitation.getD 0) -
    kcJour kcCal gddCumul n i j * (j.etp0.getD 0) * ksJour rfuMax rfu))

/-- The per-day recorded reserve percentage. -/
def pctJour (rfuMax rfu : ℚ) : ℚ := if 0 < rfuMax then rfu / rfuMax * 100 else 0

/-- The daily scan of `calculer_bilan_rfu`, carrying (reserve, stress
coefficient, recorded percentage trace). -/
def bilanScan (kcCal : ℕ → Option ℚ) (rfuMax fRunoff iConst gddCumul : ℚ) (n : ℕ) :
    List JourBilan → ℕ → ℚ → ℚ → List ℚ → ℚ × ℚ × List ℚ
  | [], _, rfu, ks, hist => (rfu, ks, hist)
  | j :: r, i, rfu, _, hist =>
    bilanScan kcCal rfuMax fRunoff iConst gddCumul n r (i + 1)
      (rfuSuivant kcCal rfuMax fRunoff iConst gddCumul n i rfu j)
      (ksJour rfuMax rfu)
      (hist ++ [pyRound1 (pctJour rfuMax (rfuSuivant kcCal rfuMax fRunoff iConst gddCumul n i rfu j))])

/-- Final percentage (`rfu_max == 0` guard of step 8). -/
def pctFinal (rfuMax rfu : ℚ) : ℚ := if rfuMax = 0 then 0 else rfu / rfuMax * 100

/-- Alert level of step 9, with the dormancy suffix. -/
def niveauFinal (stade : String) (pct : ℚ) : String :=
  (if pct ≤ 30 then "STRESS FORT" else if pct ≤ 60 then "SURVEILLANCE" else "CONFORTABLE") ++
    (if stade = "repos" then " (Dormance)" else "")

/-- `ModeleBilanHydrique.calculer_bilan_rfu` over the usable-day list. -/
def calculerBilanRfu (kcCal : ℕ → Option ℚ) (stadeManuel : String)
    (rfuMax fRunoff iConst gddCumul : ℚ) (jours : List JourBilan) : BilanResult :=
  if jours.isEmpty then
    ⟨100, rfuMax, rfuMax, "Données insuffisantes", [], 1⟩
  else
    ⟨pyRound1 (pctFinal rfuMax
        (bilanScan kcCal rfuMax fRunoff iConst gddCumul jours.length jours 0 rfuMax 1 []).1),
     pyRound1 (bilanScan kcCal rfuMax fRunoff iConst gddCumul jours.length jours 0 rfuMax 1 []).1,
     rfuMax,
     niveauFinal stadeManuel (pctFinal rfuMax
        (bilanScan kcCal rfuMax fRunoff iConst gddCumul jours.length jours 0 rfuMax 1 []).1),
     (bilanScan kcCal rfuMax fRunoff iConst gddCumul jours.length jours 0 rfuMax 1 []).2.2,
     pyRound2 (bilanScan kcCal rfuMax fRunoff iConst gddCumul jours.length jours 0 rfuMax 1 []).2.1⟩

lemma rfuSuivant_mem (kcCal : ℕ → Option ℚ) {rfuMax : ℚ} (fRunoff iConst gddCumul : ℚ)
    (n i : ℕ) (rfu : ℚ) (j : JourBilan) (hmax : 0 ≤ rfuMax) :
    0 ≤ rfuSuivant kcCal rfuMax fRunoff iConst gddCumul n i rfu j ∧
      rfuSuivant kcCal rfuMax fRunoff iConst gddCumul n i rfu j ≤ rfuMax :=
  ⟨le_max_left _ _, max_le hmax (min_le_left _ _)⟩

lemma pctJour_mem {rfuMax rfu : ℚ} (h0 : 0 ≤ rfu) (h1 : rfu ≤ rfuMax) :
    0 ≤ pctJour rfuMax rfu ∧ pctJour rfuMax rfu ≤ 100 := by
  unfold pctJour
  split_ifs with h
  · constructor
    · exact mul_nonneg (div_nonneg h0 h.le) (by norm_num)
    · have hd : rfu / rfuMax ≤ 1 := (div_le_one h).mpr h1
      linarith
  · norm_num

lemma pctFinal_mem {rfuMax rfu : ℚ} (hmax : 0 ≤ rfuMax) (h0 : 0 ≤ rfu) (h1 : rfu ≤ rfuMax) :
    0 ≤ pctFinal rfuMax rfu ∧ pctFinal rfuMax rfu ≤ 100 := by
  unfold pctFinal
  split_ifs with h
  · norm_num
  · have hpos : 0 < rfuMax := lt_of_le_of_ne hmax (Ne.symm h)
    constructor
    · exact mul_nonneg (div_nonneg h0 hpos.le) (by norm_num)
    · have hd : rfu / rfuMax ≤ 1 := (div_le_one hpos).mpr h1
      linarith

lemma bilanScan_invariant (kcCal : ℕ → Option ℚ) {rfuMax : ℚ}
    (fRunoff iConst gddCumul : ℚ) (n : ℕ) (hmax : 0 ≤ rfuMax) :
    ∀ (l : List JourBilan) (i : ℕ) (rfu ks : ℚ) (hist : List ℚ),
      0 ≤ rfu → rfu ≤ rfuMax → (∀ x ∈ hist, 0 ≤ x ∧ x ≤ 100) →
      0 ≤ (bilanScan kcCal rfuMax fRunoff iConst gddCumul n l i rfu ks hist).1 ∧
      (bilanScan kcCal rfuMax fRunoff iConst gddCumul n l i rfu ks hist).1 ≤ rfuMax ∧
      ∀ x ∈ (bilanScan kcCal rfuMax fRunoff iConst gddCumul n l i rfu ks hist).2.2,
        0 ≤ x ∧ x ≤ 100 := by
  intro l
  induction l with
  | nil =>
    intro i rfu ks hist h0 h1 hh
    exact ⟨h0, h1, hh⟩
  | cons j r ih =>
    intro i rfu ks hist h0 h1 hh
    have hr := rfuSuivant_mem kcCal fRunoff iConst gddCumul n i rfu j hmax
    have hpct := pctJour_mem hr.1 hr.2
    have hh2 : ∀ x ∈ hist ++
        [pyRound1 (pctJour rfuMax (rfuSuivant kcCal rfuMax fRunoff iConst gddCumul n i rfu j))],
        0 ≤ x ∧ x ≤ 100 := by
      intro x hx
      rcases List.mem_append.mp hx with hx | hx
      · exact hh x hx
      · rw [List.mem_singleton.mp hx]
        exact ⟨pyRound1_nonneg hpct.1, pyRound1_le_hundred hpct.2⟩
    exact ih (i + 1) _ _ _ hr.1 hr.2 hh2

/-- C3: with a non-negative capacity, the reserve carried by the
water-balance scan stays in [0, capacity] after every daily step, every
recorded percentage of the per-day trace lies in [0, 100], and so does the
final reported percentage. -/
theorem bilan_hydrique_borne
    (kcCal : ℕ → Option ℚ) (stade : String) (rfuMax fRunoff iConst gddCumul : ℚ)
    (jours : List JourBilan) (hmax : 0 ≤ rfuMax) :
    (∀ k : ℕ,
      0 ≤ (bilanScan kcCal rfuMax fRunoff iConst gddCumul jours.length
            (jours.take k) 0 rfuMax 1 []).1 ∧
      (bilanScan kcCal rfuMax fRunoff iConst gddCumul jours.length
            (jours.take k) 0 rfuMax 1 []).1 ≤ rfuMax) ∧
    (∀ x ∈ (calculerBilanRfu kcCal stade rfuMax fRunoff iConst gddCumul jours).historique_pct,
      0 ≤ x ∧ x ≤ 100) ∧
    0 ≤ (calculerBilanRfu kcCal stade rfuMax fRunoff iConst gddCumul jours).rfu_pct ∧
    (calculerBilanRfu kcCal stade rfuMax fRunoff iConst gddCumul jours).rfu_pct ≤ 100 := by
  have hinv := bilanScan_invariant kcCal fRunoff iConst gddCumul jours.length hmax
  have hmain := hinv jours 0 rfuMax 1 [] hmax le_rfl (by simp)
  refine ⟨fun k => ?_, ?_, ?_, ?_⟩
  · have h := hinv (jours.take k) 0 rfuMax 1 [] hmax le_rfl (by simp)
    exact ⟨h.1, h.2.1⟩
  · unfold calculerBilanRfu
    split_ifs with he
    · intro x hx
      exact absurd hx (by simp)
    · exact hmain.2.2
  · unfold calculerBilanRfu
    split_ifs with he
    · norm_num
    · exact pyRound1_nonneg (pctFinal_mem hmax hmain.1 hmain.2.1).1
  · unfold calculerBilanRfu
    split_ifs with he
    · norm_num
    · exact pyRound1_le_hundred (pctFinal_mem hmax hmain.1 hmain.2.1).2

/-- Witness for C3: a 100 mm capacity with one dry 5 mm-ET day. -/
theorem bilan_hydrique_borne_temoin :
    ((0 : ℚ) ≤ 100) ∧
    0 ≤ (calculerBilanRfu (fun _ => none) "floraison" 100 (1/10) 1 0
          [⟨5, some 0, some 5, none⟩]).rfu_pct ∧
    (calculerBilanRfu (fun _ => none) "floraison" 100 (1/10) 1 0
          [⟨5, some 0, some 5, none⟩]).rfu_pct ≤ 100 := by
  have h := bilan_hydrique_borne (fun _ => none) "floraison" 100 (1/10) 1 0
    [⟨5, some 0, some 5, none⟩] (by norm_num)
  exact ⟨by norm_num, h.2.2.1, h.2.2.2⟩

/-! ### SystemeDecision._calculer_gdd (lines 1107-1158)

A calendar date is the pair (year, day ordinal inside the year), ordered
lexicographically — exactly the structure the Python code uses through
`datetime.date` comparison and `.year` access.  March 1st of year `y` is
the date with ordinal 59. -/

structure DateSV where
  year : ℤ
  doy : ℕ
deriving DecidableEq

/-- Chronological comparison of two dates. -/
def dateLe (a b : DateSV) : Bool :=
  decide (a.year < b.year) || (decide (a.year = b.year) && decide (a.doy ≤ b.doy))

/-- The 1st of March of a year (`f"{annee}-03-01"`). -/
def premierMars (y : ℤ) : DateSV := ⟨y, 59⟩

/-- `SystemeDecision.GDD_STADE_MAP`. -/
def gddStadeMap : List (ℚ × String) :=
  [(180, "debourrement"), (300, "pousse_10cm"), (500, "pre_floraison"), (600, "floraison"),
   (750, "nouaison"), (900, "fermeture_grappe"), (1200, "veraison"), (1500, "maturation"),
   (1800, "repos")]

/-- Largest threshold not exceeding the sum (descending scan of the map). -/
def stadeEstimeGdd (g : ℚ) : String :=
  ((gddStadeMap.reverse.find? fun e => decide (e.1 ≤ g)).map Prod.snd).getD "repos"

/-- First unmet threshold (ascending scan of the map). -/
def prochainStade (g : ℚ) : Option (ℚ × String) :=
  gddStadeMap.find? fun e => decide (g < e.1)

/-- Start date of the accumulation: the manual biofix when it is set, falls
in the current season and is not in the future, else March 1st. -/
def debutGdd (biofix : Option DateSV) (asOf : DateSV) : DateSV :=
  match biofix with
  | some bf =>
    if bf.year = asOf.year ∧ dateLe bf asOf = true then bf else premierMars asOf.year
  | none => premierMars asOf.year

/-- The guarded accumulation loop over the stored dates. -/
def sommeGdd (debut asOf : DateSV) (hist : List (DateSV × ℚ)) : ℚ :=
  hist.foldl (fun acc e => if dateLe debut e.1 && dateLe e.1 asOf then acc + e.2 else acc) 0

/-- `SystemeDecision._calculer_gdd` (the presentational `mode_calcul` string
is omitted): cumulative GDD truncated to an integer, estimated stage, and
next threshold/stage pair. -/
def calculerGdd (biofix : Option DateSV) (hist : List (DateSV × ℚ)) (asOf : DateSV)
    (stadeManuel : String) : ℤ × String × Option (ℚ × String) :=
  if stadeManuel = "repos" then (0, "repos", some (180, "debourrement"))
  else
    (pyInt (sommeGdd (debutGdd biofix asOf) asOf hist),
     stadeEstimeGdd (sommeGdd (debutGdd biofix asOf) asOf hist),
     prochainStade (sommeGdd (debutGdd biofix asOf) asOf hist))

lemma foldl_guard_sum (p : DateSV × ℚ → Bool) :
    ∀ (l : List (DateSV × ℚ)) (init : ℚ),
      l.foldl (fun acc e => if p e then acc + e.2 else acc) init =
        init + ((l.filter p).map Prod.snd).sum := by
  intro l
  induction l with
  | nil =>
    intro init
    simp
  | cons e r ih =>
    intro init
    by_cases hp : p e = true
    · rw [List.foldl_cons, if_pos hp, ih, List.filter_cons_of_pos hp, List.map_cons,
        List.sum_cons]
      ring
    · rw [List.foldl_cons, if_neg hp, ih, List.filter_cons_of_neg hp]

/-- C8: the GDD accumulator sums the stored daily heat units over
[start, asOfDate] (then truncates toward zero), where start is the manual
biofix when set, in the same calendar year as asOfDate and not after it,
and the 1st of March of the current season otherwise; in the dormant stage
the accumulation is skipped and the cumulative GDD is exactly 0. -/
theorem gdd_accumulation
    (biofix : Option DateSV) (hist : List (DateSV × ℚ)) (asOf : DateSV) (stade : String) :
    (stade = "repos" → (calculerGdd biofix hist asOf stade).1 = 0) ∧
    (stade ≠ "repos" →
      (calculerGdd biofix hist asOf stade).1 =
        pyInt (((hist.filter fun e =>
          dateLe (debutGdd biofix asOf) e.1 && dateLe e.1 asOf).map Prod.snd).sum)) ∧
    (∀ bf, biofix = some bf → bf.year = asOf.year → dateLe bf asOf = true →
      debutGdd biofix asOf = bf) ∧
    (∀ bf, biofix = some bf → ¬(bf.year = asOf.year ∧ dateLe bf asOf = true) →
      debutGdd biofix asOf = premierMars asOf.year) ∧
    (biofix = none → debutGdd biofix asOf = premierMars asOf.year) := by
  refine ⟨fun hs => ?_, fun hs => ?_, fun bf hbf h1 h2 => ?_, fun bf hbf hcond => ?_,
    fun hbf => ?_⟩
  · simp [calculerGdd, hs]
  · simp only [calculerGdd, if_neg hs]
    unfold sommeGdd
    rw [foldl_guard_sum]
    rw [zero_add]
  · simp only [debutGdd, hbf]
    rw [if_pos ⟨h1, h2⟩]
  · simp only [debutGdd, hbf]
    rw [if_neg hcond]
  · simp only [debutGdd, hbf]

/-- Witness for C8: a biofix on day 70 of 2025, two stored days of which
one falls inside [biofix, asOf], plus the dormant case. -/
theorem gdd_accumulation_temoin :
    ((calculerGdd (some ⟨2025, 70⟩) [(⟨2025, 80⟩, 25/2), (⟨2025, 60⟩, 3)] ⟨2025, 100⟩
        "floraison").1 =
      pyInt ((([((⟨2025, 80⟩ : DateSV), (25/2 : ℚ)), (⟨2025, 60⟩, 3)].filter fun e =>
        dateLe (debutGdd (some ⟨2025, 70⟩) ⟨2025, 100⟩) e.1 &&
          dateLe e.1 ⟨2025, 100⟩).map Prod.snd).sum)) ∧
    debutGdd (some ⟨2025, 70⟩) ⟨2025, 100⟩ = ⟨2025, 70⟩ ∧
    (calculerGdd (some ⟨2025, 70⟩) [(⟨2025, 80⟩, 25/2), (⟨2025, 60⟩, 3)] ⟨2025, 100⟩
        "repos").1 = 0 := by
  have h := gdd_accumulation (some ⟨2025, 70⟩) [(⟨2025, 80⟩, 25/2), (⟨2025, 60⟩, 3)]
    ⟨2025, 100⟩ "floraison"
  have h2 := gdd_accumulation (some ⟨2025, 70⟩) [(⟨2025, 80⟩, 25/2), (⟨2025, 60⟩, 3)]
    ⟨2025, 100⟩ "repos"
  exact ⟨h.2.1 (by decide), h.2.2.1 ⟨2025, 70⟩ rfl rfl (by decide), h2.1 rfl⟩

end SuiviVignes
